import Mathlib

/-!
Shallow embedding of the library-project core (book.py, member.py, library.py,
member_manager.py, main.py, api.py).

Python objects become Lean structures; in-place mutation becomes explicit state
passing; `raise ValueError` becomes an error value returned next to the
(possibly mutated) state; the JSON backing file of each store is modelled as
the `stored` component of the store state, updated by `save`.
-/

/-- Python's `str.strip()` on whitespace, modelled on the character list:
drop whitespace from the front, then from the back. -/
def pyStrip (s : String) : String :=
  String.mk (List.rdropWhile Char.isWhitespace (List.dropWhile Char.isWhitespace s.data))

/-- The variant part of a `Book`: the base dataclass `Book` (plain), the
`EBook` subclass (extra field `file_format`, default `"PDF"`), and the
`AudioBook` subclass (extra field `duration`, default `0`). -/
inductive BookVariant : Type
  | plain : BookVariant
  | ebook (file_format : String) : BookVariant
  | audiobook (duration : Int) : BookVariant
deriving DecidableEq, Repr

/-- `book.py`: the shared dataclass fields of `Book`/`EBook`/`AudioBook`,
with the subclass-specific fields gathered in `variant`. -/
structure Book : Type where
  title : String
  author : String
  isbn : String
  is_borrowed : Bool
  variant : BookVariant
deriving DecidableEq, Repr

/-- A JSON object as produced/consumed by `Book.to_dict` / `Book.from_dict`:
each supported key is present (`some`) or absent (`none`); `cls` is the
`"_cls"` variant tag. -/
structure BookDict : Type where
  title : Option String
  author : Option String
  isbn : Option String
  is_borrowed : Option Bool
  file_format : Option String
  duration : Option Int
  cls : Option String
deriving DecidableEq, Repr

/-- `Book.to_dict`: `asdict(self)` (all dataclass fields of the concrete
class) plus the `"_cls"` tag holding the class name. -/
def Book.to_dict (b : Book) : BookDict :=
  match b.variant with
  | .plain =>
      ⟨some b.title, some b.author, some b.isbn, some b.is_borrowed, none, none, some "Book"⟩
  | .ebook ff =>
      ⟨some b.title, some b.author, some b.isbn, some b.is_borrowed, some ff, none, some "EBook"⟩
  | .audiobook dur =>
      ⟨some b.title, some b.author, some b.isbn, some b.is_borrowed, none, some dur, some "AudioBook"⟩

/-- `Book.from_dict`: pop `"_cls"` (default `"Book"`), dispatch on it, and
call the dataclass constructor with the remaining keys.  A missing required
field or a keyword the chosen class does not accept raises `TypeError` in
Python; that is the `none` result here.  Absent optional fields take the
declared defaults (`is_borrowed` → `false`, `file_format` → `"PDF"`,
`duration` → `0`). -/
def Book.from_dict (d : BookDict) : Option Book :=
  let cls := d.cls.getD "Book"
  if cls = "EBook" then
    match d.title, d.author, d.isbn with
    | some t, some a, some i =>
        if d.duration.isSome then none
        else some ⟨t, a, i, d.is_borrowed.getD false, .ebook (d.file_format.getD "PDF")⟩
    | _, _, _ => none
  else if cls = "AudioBook" then
    match d.title, d.author, d.isbn with
    | some t, some a, some i =>
        if d.file_format.isSome then none
        else some ⟨t, a, i, d.is_borrowed.getD false, .audiobook (d.duration.getD 0)⟩
    | _, _, _ => none
  else
    match d.title, d.author, d.isbn with
    | some t, some a, some i =>
        if d.file_format.isSome || d.duration.isSome then none
        else some ⟨t, a, i, d.is_borrowed.getD false, .plain⟩
    | _, _, _ => none

/-- `member.py`: the `Member` dataclass. -/
structure Member : Type where
  name : String
  member_id : String
  email : String
  borrowed_books : List String
deriving DecidableEq, Repr

/-- A JSON object as produced/consumed by `Member.to_dict` / `Member.from_dict`. -/
structure MemberDict : Type where
  name : Option String
  member_id : Option String
  email : Option String
  borrowed_books : Option (List String)
deriving DecidableEq, Repr

/-- `Member.to_dict`: `asdict(self)`. -/
def Member.to_dict (m : Member) : MemberDict :=
  ⟨some m.name, some m.member_id, some m.email, some m.borrowed_books⟩

/-- `Member.from_dict`: copy the dict, `setdefault("borrowed_books", [])`,
then call the constructor; a missing required field raises in Python (`none`
here). -/
def Member.from_dict (d : MemberDict) : Option Member :=
  match d.name, d.member_id, d.email with
  | some n, some i, some e => some ⟨n, i, e, d.borrowed_books.getD []⟩
  | _, _, _ => none

/-- Error kinds raised by the stores (`ValueError` with distinct messages). -/
inductive StoreErr : Type
  | duplicateKey : StoreErr
  | notFound : StoreErr
deriving DecidableEq, Repr

/-- Error kinds raised inside the CLI circulation flows. -/
inductive FlowErr : Type
  | memberNotFound : FlowErr
  | bookNotFound : FlowErr
  | alreadyBorrowed : FlowErr
  | duplicateBorrow : FlowErr
  | notBorrowed : FlowErr
  | notBorrowedByMember : FlowErr
deriving DecidableEq, Repr

/-- The state of a backing file as the store's `load` sees it. -/
inductive FileContent (α : Type) : Type
  | absent : FileContent α
  | invalidJson : FileContent α
  | nonArrayJson : FileContent α
  | jsonArray (items : List α) : FileContent α
deriving DecidableEq

/-- `library.py` `Library`: the in-memory book list plus the content of the
backing JSON file (what the last `save_books` wrote). -/
structure Library : Type where
  books : List Book
  stored : List BookDict
deriving DecidableEq, Repr

/-- `Library.save_books`: serialize the full in-memory collection to the file. -/
def Library.save_books (lib : Library) : Library :=
  { lib with stored := lib.books.map Book.to_dict }

/-- `Library.load_books`: absent file → empty list; unparseable JSON or JSON
that is not a list → exception caught, warning printed, empty list; otherwise
deserialize every item (an item `Book.from_dict` rejects raises, which the
same handler turns into the empty list). -/
def load_books (f : FileContent BookDict) : List Book :=
  match f with
  | .absent => []
  | .invalidJson => []
  | .nonArrayJson => []
  | .jsonArray items => (items.mapM Book.from_dict).getD []

/-- `Library.add_book`: reject a duplicate isbn, else append and save. -/
def Library.add_book (lib : Library) (book : Book) : Library × Option StoreErr :=
  if lib.books.any (fun b => b.isbn == book.isbn) then (lib, some .duplicateKey)
  else (Library.save_books { lib with books := lib.books ++ [book] }, none)

/-- The loop of `Library.remove_book`: remove the first book whose isbn
matches, or report that none does. -/
def eraseFirstBook : List Book → String → Option (List Book)
  | [], _ => none
  | b :: rest, key =>
      if b.isbn == key then some rest
      else (eraseFirstBook rest key).map (fun l => b :: l)

/-- `Library.remove_book`: remove the first book with this isbn and save;
raise `NotFound` if there is none. -/
def Library.remove_book (lib : Library) (isbn : String) : Library × Option StoreErr :=
  match eraseFirstBook lib.books isbn with
  | some books2 => (Library.save_books { lib with books := books2 }, none)
  | none => (lib, some .notFound)

/-- `Library.find_book`: strip the lookup argument, then return the first
book whose stored isbn equals it verbatim. -/
def Library.find_book (lib : Library) (isbn : String) : Option Book :=
  lib.books.find? (fun b => b.isbn == pyStrip isbn)

/-- The `{title, author, isbn}` payload returned by the metadata-lookup
collaborator `fetch_book_from_api`. -/
structure ApiBookData : Type where
  title : String
  author : String
  isbn : String
deriving DecidableEq, Repr

/-- The payload `fetch_book_from_api` builds from a fetched title and author
names: authors default to `["Unknown Author"]` when empty and are joined with
`", "`; the isbn key is the isbn the caller passed. -/
def api_book_payload (title : String) (authors : List String) (isbn : String) : ApiBookData :=
  ⟨title, String.intercalate ", " (if authors.isEmpty then ["Unknown Author"] else authors), isbn⟩

/-- `Library.add_book_from_isbn`: reject a duplicate isbn; fail when the
collaborator returns nothing; otherwise construct a base-class `Book` from
the payload (`is_borrowed` defaults to `false`), append it and save.  The
collaborator's answer is passed in as `fetched`. -/
def Library.add_book_from_isbn (lib : Library) (isbn : String) (fetched : Option ApiBookData) :
    Library × Option StoreErr :=
  if lib.books.any (fun b => b.isbn == isbn) then (lib, some .duplicateKey)
  else
    match fetched with
    | none => (lib, some .notFound)
    | some d =>
        (Library.save_books { lib with books := lib.books ++ [⟨d.title, d.author, d.isbn, false, .plain⟩] },
         none)

/-- `member_manager.py` `MemberManager`: the in-memory member list plus the
content of the backing JSON file. -/
structure MemberManager : Type where
  members : List Member
  stored : List MemberDict
deriving DecidableEq, Repr

/-- `MemberManager.save_members`. -/
def MemberManager.save_members (mgr : MemberManager) : MemberManager :=
  { mgr with stored := mgr.members.map Member.to_dict }

/-- `MemberManager.load_members`: same fallback-to-empty structure as
`load_books`. -/
def load_members (f : FileContent MemberDict) : List Member :=
  match f with
  | .absent => []
  | .invalidJson => []
  | .nonArrayJson => []
  | .jsonArray items => (items.mapM Member.from_dict).getD []

/-- `MemberManager.add_member`: reject a duplicate member_id, else append and
save. -/
def MemberManager.add_member (mgr : MemberManager) (member : Member) :
    MemberManager × Option StoreErr :=
  if mgr.members.any (fun m => m.member_id == member.member_id) then (mgr, some .duplicateKey)
  else (MemberManager.save_members { mgr with members := mgr.members ++ [member] }, none)

/-- The loop of `MemberManager.remove_member`. -/
def eraseFirstMember : List Member → String → Option (List Member)
  | [], _ => none
  | m :: rest, key =>
      if m.member_id == key then some rest
      else (eraseFirstMember rest key).map (fun l => m :: l)

/-- `MemberManager.remove_member`. -/
def MemberManager.remove_member (mgr : MemberManager) (member_id : String) :
    MemberManager × Option StoreErr :=
  match eraseFirstMember mgr.members member_id with
  | some members2 => (MemberManager.save_members { mgr with members := members2 }, none)
  | none => (mgr, some .notFound)

/-- `MemberManager.find_member`: return the first member whose member_id
equals the lookup argument; no normalization of either side. -/
def MemberManager.find_member (mgr : MemberManager) (member_id : String) : Option Member :=
  mgr.members.find? (fun m => m.member_id == member_id)

/-- `Book.borrow_book()` applied in place to the first book in the list whose
isbn matches (the object `find_book` returned an alias to): set
`is_borrowed` to `v`. -/
def setBorrowedFirst : List Book → String → Bool → List Book
  | [], _, _ => []
  | b :: rest, key, v =>
      if b.isbn == key then { b with is_borrowed := v } :: rest
      else b :: setBorrowedFirst rest key v

/-- `Member.borrow_book(isbn)` applied in place to the first member in the
list whose member_id matches: append the isbn to its `borrowed_books`. -/
def memberAppendFirst : List Member → String → String → List Member
  | [], _, _ => []
  | m :: rest, mid, isbn =>
      if m.member_id == mid then
        { m with borrowed_books := m.borrowed_books ++ [isbn] } :: rest
      else m :: memberAppendFirst rest mid isbn

/-- `Member.return_book(isbn)` applied in place to the first member in the
list whose member_id matches: `list.remove` drops the first occurrence of the
isbn from its `borrowed_books`. -/
def memberEraseFirst : List Member → String → String → List Member
  | [], _, _ => []
  | m :: rest, mid, isbn =>
      if m.member_id == mid then
        { m with borrowed_books := m.borrowed_books.erase isbn } :: rest
      else m :: memberEraseFirst rest mid isbn

/-- `main.py` `borrow_book_flow`: strip both inputs, look up the member and
the book, then `book.borrow_book(); member.borrow_book(isbn);
lib.save_books(); mgr.save_members()` with every `ValueError` caught at the
flow level.  The result is the final in-memory state of both stores together
with the error, if one was raised. -/
def borrow_book_flow (lib : Library) (mgr : MemberManager) (member_id_raw isbn_raw : String) :
    Library × MemberManager × Option FlowErr :=
  let member_id := pyStrip member_id_raw
  let isbn := pyStrip isbn_raw
  match mgr.find_member member_id with
  | none => (lib, mgr, some .memberNotFound)
  | some member =>
      match lib.find_book isbn with
      | none => (lib, mgr, some .bookNotFound)
      | some book =>
          if book.is_borrowed then (lib, mgr, some .alreadyBorrowed)
          else
            let lib2 : Library := { lib with books := setBorrowedFirst lib.books isbn true }
            if isbn ∈ member.borrowed_books then (lib2, mgr, some .duplicateBorrow)
            else
              let mgr2 : MemberManager :=
                { mgr with members := memberAppendFirst mgr.members member_id isbn }
              (lib2.save_books, mgr2.save_members, none)

/-- `main.py` `return_book_flow`: symmetric to `borrow_book_flow`. -/
def return_book_flow (lib : Library) (mgr : MemberManager) (member_id_raw isbn_raw : String) :
    Library × MemberManager × Option FlowErr :=
  let member_id := pyStrip member_id_raw
  let isbn := pyStrip isbn_raw
  match mgr.find_member member_id with
  | none => (lib, mgr, some .memberNotFound)
  | some member =>
      match lib.find_book isbn with
      | none => (lib, mgr, some .bookNotFound)
      | some book =>
          if book.is_borrowed then
            let lib2 : Library := { lib with books := setBorrowedFirst lib.books isbn false }
            if isbn ∈ member.borrowed_books then
              let mgr2 : MemberManager :=
                { mgr with members := memberEraseFirst mgr.members member_id isbn }
              (lib2.save_books, mgr2.save_members, none)
            else (lib2, mgr, some .notBorrowedByMember)
          else (lib, mgr, some .notBorrowed)

/-- `main.py` `remove_book_flow`: strip the input isbn and call the store's
`remove_book` directly — there is no is_borrowed check on this path. -/
def remove_book_flow (lib : Library) (isbn_raw : String) : Library × Option StoreErr :=
  lib.remove_book (pyStrip isbn_raw)

/-- Error kinds of the `DELETE /books/{isbn}` endpoint in `api.py`. -/
inductive ApiErr : Type
  | notFoundInLibrary : ApiErr
  | cannotDeleteBorrowed : ApiErr
  | valueError : ApiErr
deriving DecidableEq, Repr

/-- `api.py` `delete_book`: 404 when `find_book` misses; 400 rejecting the
delete when the found book is borrowed; otherwise `remove_book` (whose own
`ValueError`, if any, becomes a 400). -/
def api_delete_book (lib : Library) (isbn : String) : Library × Option ApiErr :=
  match lib.find_book isbn with
  | none => (lib, some .notFoundInLibrary)
  | some book =>
      if book.is_borrowed then (lib, some .cannotDeleteBorrowed)
      else
        match lib.remove_book isbn with
        | (lib2, none) => (lib2, none)
        | (lib2, some _) => (lib2, some .valueError)

/-! ### Helper lemmas -/

/-- `String.mk` and `String.data` are inverse. -/
lemma data_mk (l : List Char) : (String.mk l).data = l := rfl

/-- Front-stripping is the identity on a front-and-back-stripped list. -/
lemma dropWhile_rdropWhile {α : Type} (p : α → Bool) (l : List α) :
    List.dropWhile p (List.rdropWhile p (List.dropWhile p l)) =
      List.rdropWhile p (List.dropWhile p l) := by
  rw [List.dropWhile_eq_self_iff]
  intro hl
  obtain ⟨t, ht⟩ := List.rdropWhile_prefix p (List.dropWhile p l)
  have hlen : 0 < (List.dropWhile p l).length := by
    rw [← ht, List.length_append]
    omega
  have hget := List.dropWhile_get_zero_not p l hlen
  have heq : (List.rdropWhile p (List.dropWhile p l)).get ⟨0, hl⟩ =
      (List.dropWhile p l).get ⟨0, hlen⟩ := by
    simpa [List.get_eq_getElem] using
      List.IsPrefix.getElem (⟨t, ht⟩ : List.rdropWhile p (List.dropWhile p l) <+: _) hl
  rw [heq]
  exact hget

/-- Stripping is idempotent. -/
lemma pyStrip_idem (s : String) : pyStrip (pyStrip s) = pyStrip s := by
  simp only [pyStrip, data_mk]
  rw [dropWhile_rdropWhile, List.rdropWhile_idempotent]

/-- A key that is not already stripped is never the strip of anything. -/
lemma pyStrip_ne_of_not_stripped {s : String} (h : pyStrip s ≠ s) (k : String) :
    pyStrip k ≠ s := by
  intro he
  exact h (by rw [← he, pyStrip_idem, he])

/-- `find_book` only ever looks at the stripped key. -/
lemma find_book_pyStrip (lib : Library) (isbn : String) :
    lib.find_book (pyStrip isbn) = lib.find_book isbn := by
  simp [Library.find_book, pyStrip_idem]

/-- Setting the borrowed flag of the first key-matching book commutes with
looking that key up. -/
lemma find?_setBorrowedFirst (books : List Book) (key : String) (v : Bool) (book : Book)
    (h : books.find? (fun b => b.isbn == key) = some book) :
    (setBorrowedFirst books key v).find? (fun b => b.isbn == key) =
      some { book with is_borrowed := v } := by
  induction books with
  | nil => simp at h
  | cons b rest ih =>
      by_cases hb : b.isbn = key
      · have hpos : (b.isbn == key) = true := by simp [hb]
        simp only [List.find?_cons, hpos] at h
        injection h with h2
        subst h2
        simp [setBorrowedFirst, hpos, List.find?_cons]
      · have hneg : (b.isbn == key) = false := by simp [hb]
        rw [List.find?_cons_of_neg _ (by simp [hneg])] at h
        simp only [setBorrowedFirst, hneg, Bool.false_eq_true, if_false]
        rw [List.find?_cons_of_neg _ (by simp [hneg])]
        exact ih h

/-- Appending an isbn to the first id-matching member commutes with looking
that id up. -/
lemma find?_memberAppendFirst (members : List Member) (mid isbn : String) (m : Member)
    (h : members.find? (fun x => x.member_id == mid) = some m) :
    (memberAppendFirst members mid isbn).find? (fun x => x.member_id == mid) =
      some { m with borrowed_books := m.borrowed_books ++ [isbn] } := by
  induction members with
  | nil => simp at h
  | cons x rest ih =>
      by_cases hx : x.member_id = mid
      · have hpos : (x.member_id == mid) = true := by simp [hx]
        simp only [List.find?_cons, hpos] at h
        injection h with h2
        subst h2
        simp [memberAppendFirst, hpos, List.find?_cons]
      · have hneg : (x.member_id == mid) = false := by simp [hx]
        rw [List.find?_cons_of_neg _ (by simp [hneg])] at h
        simp only [memberAppendFirst, hneg, Bool.false_eq_true, if_false]
        rw [List.find?_cons_of_neg _ (by simp [hneg])]
        exact ih h

/-- Concrete exemplar record used by the closed witness statements. -/
def bookEx : Book := ⟨"1984", "George Orwell", "978-0451524935", false, .plain⟩

/-- Exemplar catalog store holding `bookEx`, in sync with its file. -/
def libEx : Library := ⟨[bookEx], [Book.to_dict bookEx]⟩

/-- Exemplar member. -/
def memberEx : Member := ⟨"Ada Lovelace", "M001", "ada@example.com", []⟩

/-- Exemplar membership store holding `memberEx`, in sync with its file. -/
def mgrEx : MemberManager := ⟨[memberEx], [Member.to_dict memberEx]⟩

/-! ### Claims -/

/-- C1: in the circulation borrow workflow, when the member and the book both
exist, the book-level borrow is attempted first; if the book is already
borrowed the flow aborts with `AlreadyBorrowed` before touching the member
(both stores are returned unchanged, so the member's `borrowed_books` is
unchanged); when the book is not borrowed and the isbn is not in the member's
`borrowed_books`, the flow succeeds, the book's `is_borrowed` becomes true,
the isbn is appended to the member's `borrowed_books`, both stores are
persisted before returning, and a second identical call fails with
`AlreadyBorrowed`. -/
theorem claim_C1 (lib : Library) (mgr : MemberManager) (mid isbn : String)
    (member : Member) (book : Book)
    (hm : mgr.find_member (pyStrip mid) = some member)
    (hb : lib.find_book isbn = some book) :
    (book.is_borrowed = true →
      borrow_book_flow lib mgr mid isbn = (lib, mgr, some .alreadyBorrowed)) ∧
    (book.is_borrowed = false → pyStrip isbn ∉ member.borrowed_books →
      ∃ lib2 mgr2,
        borrow_book_flow lib mgr mid isbn = (lib2, mgr2, none) ∧
        lib2.find_book isbn = some { book with is_borrowed := true } ∧
        mgr2.find_member (pyStrip mid) =
          some { member with borrowed_books := member.borrowed_books ++ [pyStrip isbn] } ∧
        lib2.stored = lib2.books.map Book.to_dict ∧
        mgr2.stored = mgr2.members.map Member.to_dict ∧
        borrow_book_flow lib2 mgr2 mid isbn = (lib2, mgr2, some .alreadyBorrowed)) := by
  have hb3 : lib.books.find? (fun b => b.isbn == pyStrip isbn) = some book := hb
  have hm3 : mgr.members.find? (fun m => m.member_id == pyStrip mid) = some member := hm
  have hb2 : lib.find_book (pyStrip isbn) = some book := by
    rw [find_book_pyStrip]
    exact hb
  constructor
  · intro hbor
    simp only [borrow_book_flow, hm, hb2, hbor, if_true]
  · intro hbor hmem
    have hfind2 :
        (Library.save_books
          { lib with books := setBorrowedFirst lib.books (pyStrip isbn) true }).find_book isbn =
          some { book with is_borrowed := true } := by
      have h2 := find?_setBorrowedFirst lib.books (pyStrip isbn) true book hb3
      simpa [Library.save_books, Library.find_book] using h2
    have hfindm2 :
        (MemberManager.save_members
          { mgr with
            members := memberAppendFirst mgr.members (pyStrip mid) (pyStrip isbn) }).find_member
            (pyStrip mid) =
          some { member with borrowed_books := member.borrowed_books ++ [pyStrip isbn] } := by
      have h2 := find?_memberAppendFirst mgr.members (pyStrip mid) (pyStrip isbn) member hm3
      simpa [MemberManager.save_members, MemberManager.find_member] using h2
    have hflow : borrow_book_flow lib mgr mid isbn =
        (Library.save_books { lib with books := setBorrowedFirst lib.books (pyStrip isbn) true },
         MemberManager.save_members
           { mgr with members := memberAppendFirst mgr.members (pyStrip mid) (pyStrip isbn) },
         none) := by
      simp only [borrow_book_flow, hm, hb2, hbor, Bool.false_eq_true, if_false, hmem]
    refine ⟨_, _, hflow, hfind2, hfindm2, rfl, rfl, ?_⟩
    have hb4 :
        (Library.save_books
          { lib with books := setBorrowedFirst lib.books (pyStrip isbn) true }).find_book
            (pyStrip isbn) =
          some { book with is_borrowed := true } := by
      rw [find_book_pyStrip]
      exact hfind2
    simp only [borrow_book_flow, hfindm2, hb4]
    simp

/-- Witness for C1 at the exemplar stores, with a padded isbn input. -/
theorem claim_C1_witness :
    ∃ lib2 mgr2,
      borrow_book_flow libEx mgrEx "M001" " 978-0451524935 " = (lib2, mgr2, none) ∧
      lib2.find_book " 978-0451524935 " = some { bookEx with is_borrowed := true } ∧
      mgr2.find_member (pyStrip "M001") =
        some { memberEx with
                 borrowed_books := memberEx.borrowed_books ++ [pyStrip " 978-0451524935 "] } ∧
      lib2.stored = lib2.books.map Book.to_dict ∧
      mgr2.stored = mgr2.members.map Member.to_dict ∧
      borrow_book_flow lib2 mgr2 "M001" " 978-0451524935 " =
        (lib2, mgr2, some .alreadyBorrowed) :=
  (claim_C1 libEx mgrEx "M001" " 978-0451524935 " memberEx bookEx (by decide) (by decide)).2
    (by decide) (by decide)

/-- Exemplar member who already records the exemplar isbn as borrowed. -/
def memberDup : Member := ⟨"Grace Hopper", "M002", "grace@example.com", ["978-0451524935"]⟩

/-- Exemplar membership store holding `memberDup`. -/
def mgrDup : MemberManager := ⟨[memberDup], [Member.to_dict memberDup]⟩

/-- Exemplar book already borrowed. -/
def bookBor : Book := ⟨"1984", "George Orwell", "978-0451524935", true, .plain⟩

/-- Exemplar catalog store holding `bookBor`. -/
def libBor : Library := ⟨[bookBor], [Book.to_dict bookBor]⟩

/-- C3: when the book-level borrow succeeds but the member-level call then
fails because the member already records that isbn, the book's `is_borrowed`
flag remains set in the in-memory catalog (no compensating rollback), the
membership store is untouched, and the error propagates out of the mutation
sequence (so neither store is saved); symmetrically for return, where the
book-level return clears the flag and the member-level failure leaves it
cleared. -/
theorem claim_C3 (lib : Library) (mgr : MemberManager) (mid isbn : String)
    (member : Member) (book : Book)
    (hm : mgr.find_member (pyStrip mid) = some member)
    (hb : lib.find_book isbn = some book) :
    (book.is_borrowed = false → pyStrip isbn ∈ member.borrowed_books →
      borrow_book_flow lib mgr mid isbn =
        ({ lib with books := setBorrowedFirst lib.books (pyStrip isbn) true }, mgr,
          some .duplicateBorrow) ∧
      ({ lib with books := setBorrowedFirst lib.books (pyStrip isbn) true } : Library).find_book
          isbn = some { book with is_borrowed := true }) ∧
    (book.is_borrowed = true → pyStrip isbn ∉ member.borrowed_books →
      return_book_flow lib mgr mid isbn =
        ({ lib with books := setBorrowedFirst lib.books (pyStrip isbn) false }, mgr,
          some .notBorrowedByMember) ∧
      ({ lib with books := setBorrowedFirst lib.books (pyStrip isbn) false } : Library).find_book
          isbn = some { book with is_borrowed := false }) := by
  have hb3 : lib.books.find? (fun b => b.isbn == pyStrip isbn) = some book := hb
  have hb2 : lib.find_book (pyStrip isbn) = some book := by
    rw [find_book_pyStrip]
    exact hb
  constructor
  · intro hbor hmem
    constructor
    · simp only [borrow_book_flow, hm, hb2, hbor, Bool.false_eq_true, if_false, hmem, if_true]
    · have h2 := find?_setBorrowedFirst lib.books (pyStrip isbn) true book hb3
      simpa [Library.find_book] using h2
  · intro hbor hmem
    constructor
    · simp only [return_book_flow, hm, hb2, hbor, if_true, hmem, if_false]
    · have h2 := find?_setBorrowedFirst lib.books (pyStrip isbn) false book hb3
      simpa [Library.find_book] using h2

/-- Witness for C3: the borrow half at a member who already holds the isbn,
and the return half at a book that is borrowed while the member does not
record it. -/
theorem claim_C3_witness :
    (borrow_book_flow libEx mgrDup "M002" "978-0451524935" =
        ({ libEx with books := setBorrowedFirst libEx.books (pyStrip "978-0451524935") true },
          mgrDup, some .duplicateBorrow) ∧
      ({ libEx with books := setBorrowedFirst libEx.books (pyStrip "978-0451524935") true } :
          Library).find_book "978-0451524935" = some { bookEx with is_borrowed := true }) ∧
    (return_book_flow libBor mgrEx "M001" "978-0451524935" =
        ({ libBor with books := setBorrowedFirst libBor.books (pyStrip "978-0451524935") false },
          mgrEx, some .notBorrowedByMember) ∧
      ({ libBor with books := setBorrowedFirst libBor.books (pyStrip "978-0451524935") false } :
          Library).find_book "978-0451524935" = some { bookBor with is_borrowed := false }) :=
  ⟨(claim_C3 libEx mgrDup "M002" "978-0451524935" memberDup bookEx (by decide) (by decide)).1
      (by decide) (by decide),
   (claim_C3 libBor mgrEx "M001" "978-0451524935" memberEx bookBor (by decide) (by decide)).2
      (by decide) (by decide)⟩

/-- C2: serialize→deserialize is the identity on every book variant and on
members; a tagged mapping whose tag is missing or not `"EBook"`/`"AudioBook"`
and that carries only base fields deserializes to a plain book; absent fields
take the declared defaults (`is_borrowed` → false, `file_format` → "PDF",
`duration` → 0, `borrowed_books` → empty). -/
theorem claim_C2 :
    (∀ b : Book, Book.from_dict (Book.to_dict b) = some b) ∧
    (∀ m : Member, Member.from_dict (Member.to_dict m) = some m) ∧
    (∀ (d : BookDict) (t a i : String),
      (∀ s, d.cls = some s → s ≠ "EBook" ∧ s ≠ "AudioBook") →
      d.title = some t → d.author = some a → d.isbn = some i →
      d.file_format = none → d.duration = none →
      Book.from_dict d = some ⟨t, a, i, d.is_borrowed.getD false, .plain⟩) ∧
    (∀ t a i : String,
      Book.from_dict ⟨some t, some a, some i, none, none, none, some "EBook"⟩ =
        some ⟨t, a, i, false, .ebook "PDF"⟩) ∧
    (∀ t a i : String,
      Book.from_dict ⟨some t, some a, some i, none, none, none, some "AudioBook"⟩ =
        some ⟨t, a, i, false, .audiobook 0⟩) ∧
    (∀ n i e : String,
      Member.from_dict ⟨some n, some i, some e, none⟩ = some ⟨n, i, e, []⟩) := by
  refine ⟨?_, ?_, ?_, ?_, ?_, ?_⟩
  · intro b
    rcases b with ⟨t, a, i, bor, v⟩
    cases v <;> rfl
  · intro m
    rfl
  · rintro ⟨dt, da, di, db, dff, ddur, dcls⟩ t a i htag ht ha hi hff hdur
    dsimp only at ht ha hi hff hdur
    subst ht ha hi hff hdur
    cases dcls with
    | none => rfl
    | some s =>
        obtain ⟨h1, h2⟩ := htag s rfl
        simp [Book.from_dict, h1, h2]
  · intro t a i
    rfl
  · intro t a i
    rfl
  · intro n i e
    rfl

/-- Witness for C2: round trip of the exemplar book, and deserialization of
an unknown-tag mapping with only base fields. -/
theorem claim_C2_witness :
    Book.from_dict (Book.to_dict bookEx) = some bookEx ∧
    Book.from_dict ⟨some "T", some "A", some "I", none, none, none, some "Magazine"⟩ =
      some ⟨"T", "A", "I", false, .plain⟩ :=
  ⟨claim_C2.1 bookEx,
   claim_C2.2.2.1 ⟨some "T", some "A", some "I", none, none, none, some "Magazine"⟩ "T" "A" "I"
     (fun s hs => by
        injection hs with h2
        subst h2
        exact ⟨by decide, by decide⟩)
     rfl rfl rfl rfl rfl⟩

/-- C4 counterexample: the Membership Store does not trim the lookup key —
looking up a padded member id is not the same as looking up the trimmed id. -/
theorem claim_C4_counterexample :
    ¬ (mgrEx.find_member "  M001 " = mgrEx.find_member "M001") := by decide

/-- C4 amended: the Catalog Store's `find` trims the lookup argument before
verbatim comparison (so padded and trimmed lookups agree there and any hit
has the trimmed key as isbn), but the Membership Store's `find` performs no
normalization: a hit's member_id equals the lookup argument verbatim. -/
theorem claim_C4_amended :
    (∀ (lib : Library) (k : String), lib.find_book k = lib.find_book (pyStrip k)) ∧
    (∀ (lib : Library) (k : String) (b : Book), lib.find_book k = some b → b.isbn = pyStrip k) ∧
    (∀ (mgr : MemberManager) (k : String) (m : Member),
      mgr.find_member k = some m → m.member_id = k) := by
  refine ⟨?_, ?_, ?_⟩
  · intro lib k
    rw [find_book_pyStrip]
  · intro lib k b h
    have h2 : lib.books.find? (fun x => x.isbn == pyStrip k) = some b := h
    have h3 := List.find?_some h2
    simpa using h3
  · intro mgr k m h
    have h2 : mgr.members.find? (fun x => x.member_id == k) = some m := h
    have h3 := List.find?_some h2
    simpa using h3

/-- Witness for C4's amended statement at the exemplar stores. -/
theorem claim_C4_amended_witness :
    libEx.find_book " 978-0451524935 " = libEx.find_book (pyStrip " 978-0451524935 ") ∧
    bookEx.isbn = pyStrip " 978-0451524935 " ∧
    memberEx.member_id = "M001" :=
  ⟨claim_C4_amended.1 libEx " 978-0451524935 ",
   claim_C4_amended.2.1 libEx " 978-0451524935 " bookEx (by decide),
   claim_C4_amended.2.2 mgrEx "M001" memberEx (by decide)⟩

/-- C9: `add_book` performs no key normalization, so a book whose isbn
carries surrounding whitespace is accepted whenever no stored book has that
exact isbn; but `find_book` compares the trimmed lookup key against stored
keys verbatim, so no lookup string — the padded key included — ever returns a
book whose stored isbn has leading or trailing whitespace. -/
theorem claim_C9 :
    (∀ (lib : Library) (b : Book), lib.books.any (fun x => x.isbn == b.isbn) = false →
      Library.add_book lib b = (Library.save_books { lib with books := lib.books ++ [b] }, none)) ∧
    (∀ (lib : Library) (k : String) (b : Book), pyStrip b.isbn ≠ b.isbn →
      lib.find_book k ≠ some b) := by
  constructor
  · intro lib b h
    simp [Library.add_book, h]
  · intro lib k b hpad h
    have h2 : lib.books.find? (fun x => x.isbn == pyStrip k) = some b := h
    have h3 := List.find?_some h2
    have h4 : b.isbn = pyStrip k := by simpa using h3
    exact hpad (by rw [h4, pyStrip_idem])

/-- Exemplar book whose isbn is padded with whitespace. -/
def bookPad : Book := ⟨"Padded", "Nobody", " 978-0451524935 ", false, .plain⟩

/-- Exemplar catalog store that contains the padded-isbn book. -/
def libPad : Library := Library.save_books { libEx with books := libEx.books ++ [bookPad] }

/-- Witness for C9: the padded book is accepted by `add_book` on the exemplar
store, and even looking up the padded key itself does not return it. -/
theorem claim_C9_witness :
    Library.add_book libEx bookPad =
      (Library.save_books { libEx with books := libEx.books ++ [bookPad] }, none) ∧
    libPad.find_book " 978-0451524935 " ≠ some bookPad :=
  ⟨claim_C9.1 libEx bookPad (by decide),
   claim_C9.2 libPad " 978-0451524935 " bookPad (by decide)⟩

/-- C6: for either store, `add` of a record whose identity key is already
present fails with `DuplicateKey` and leaves the store exactly as it was (no
partial mutation); otherwise `add` appends the record at the end and
immediately persists the collection. -/
theorem claim_C6 :
    (∀ (lib : Library) (b : Book), (∃ x ∈ lib.books, x.isbn = b.isbn) →
      Library.add_book lib b = (lib, some .duplicateKey)) ∧
    (∀ (lib : Library) (b : Book), (¬ ∃ x ∈ lib.books, x.isbn = b.isbn) →
      Library.add_book lib b =
        (Library.save_books { lib with books := lib.books ++ [b] }, none)) ∧
    (∀ (mgr : MemberManager) (m : Member), (∃ x ∈ mgr.members, x.member_id = m.member_id) →
      MemberManager.add_member mgr m = (mgr, some .duplicateKey)) ∧
    (∀ (mgr : MemberManager) (m : Member), (¬ ∃ x ∈ mgr.members, x.member_id = m.member_id) →
      MemberManager.add_member mgr m =
        (MemberManager.save_members { mgr with members := mgr.members ++ [m] }, none)) := by
  refine ⟨?_, ?_, ?_, ?_⟩
  · intro lib b h
    have h2 : lib.books.any (fun x => x.isbn == b.isbn) = true := by
      rw [List.any_eq_true]
      obtain ⟨x, hx, he⟩ := h
      exact ⟨x, hx, by simp [he]⟩
    simp [Library.add_book, h2]
  · intro lib b h
    have h2 : lib.books.any (fun x => x.isbn == b.isbn) = false := by
      rw [Bool.eq_false_iff]
      intro hc
      rw [List.any_eq_true] at hc
      obtain ⟨x, hx, he⟩ := hc
      exact h ⟨x, hx, by simpa using he⟩
    simp [Library.add_book, h2]
  · intro mgr m h
    have h2 : mgr.members.any (fun x => x.member_id == m.member_id) = true := by
      rw [List.any_eq_true]
      obtain ⟨x, hx, he⟩ := h
      exact ⟨x, hx, by simp [he]⟩
    simp [MemberManager.add_member, h2]
  · intro mgr m h
    have h2 : mgr.members.any (fun x => x.member_id == m.member_id) = false := by
      rw [Bool.eq_false_iff]
      intro hc
      rw [List.any_eq_true] at hc
      obtain ⟨x, hx, he⟩ := hc
      exact h ⟨x, hx, by simpa using he⟩
    simp [MemberManager.add_member, h2]

/-- Witness for C6: the duplicate case on the catalog exemplar and the
success case on the membership exemplar. -/
theorem claim_C6_witness :
    Library.add_book libEx bookEx = (libEx, some .duplicateKey) ∧
    MemberManager.add_member mgrEx memberDup =
      (MemberManager.save_members { mgrEx with members := mgrEx.members ++ [memberDup] }, none) :=
  ⟨claim_C6.1 libEx bookEx (by decide),
   claim_C6.2.2.2 mgrEx memberDup (by decide)⟩

/-- C7: `load` never fails the caller: an absent backing file, invalid JSON,
or JSON that is not an array all yield the empty collection (the error is
caught and only logged); a JSON array whose items all deserialize yields the
deserialized records, for either store. -/
theorem claim_C7 :
    (load_books FileContent.absent = [] ∧ load_books FileContent.invalidJson = [] ∧
      load_books FileContent.nonArrayJson = []) ∧
    (∀ (items : List BookDict) (books : List Book),
      items.mapM Book.from_dict = some books → load_books (.jsonArray items) = books) ∧
    (load_members FileContent.absent = [] ∧ load_members FileContent.invalidJson = [] ∧
      load_members FileContent.nonArrayJson = []) ∧
    (∀ (items : List MemberDict) (members : List Member),
      items.mapM Member.from_dict = some members → load_members (.jsonArray items) = members) := by
  refine ⟨⟨rfl, rfl, rfl⟩, ?_, ⟨rfl, rfl, rfl⟩, ?_⟩
  · intro items books h
    have h2 : load_books (.jsonArray items) = (items.mapM Book.from_dict).getD [] := rfl
    rw [h2, h]
    rfl
  · intro items members h
    have h2 : load_members (.jsonArray items) = (items.mapM Member.from_dict).getD [] := rfl
    rw [h2, h]
    rfl

/-- Witness for C7: loading the serialization of the exemplar records. -/
theorem claim_C7_witness :
    load_books (.jsonArray [Book.to_dict bookEx]) = [bookEx] ∧
    load_members (.jsonArray [Member.to_dict memberEx]) = [memberEx] :=
  ⟨claim_C7.2.1 [Book.to_dict bookEx] [bookEx] (by decide),
   claim_C7.2.2.2 [Member.to_dict memberEx] [memberEx] (by decide)⟩

/-- C10: when the metadata lookup returns data for an isbn not already in the
catalog, `add_book_from_isbn` appends a plain `Book` (never an e-book or
audiobook) whose author is the collaborator's comma-joined author string and
whose `is_borrowed` is false, and persists the catalog. -/
theorem claim_C10 (lib : Library) (isbn title : String) (authors : List String)
    (hdup : ¬ ∃ x ∈ lib.books, x.isbn = isbn) :
    Library.add_book_from_isbn lib isbn (some (api_book_payload title authors isbn)) =
      (Library.save_books
        { lib with
            books := lib.books ++
              [⟨title,
                String.intercalate ", " (if authors.isEmpty then ["Unknown Author"] else authors),
                isbn, false, .plain⟩] },
       none) := by
  have h2 : lib.books.any (fun x => x.isbn == isbn) = false := by
    rw [Bool.eq_false_iff]
    intro hc
    rw [List.any_eq_true] at hc
    obtain ⟨x, hx, he⟩ := hc
    exact hdup ⟨x, hx, by simpa using he⟩
  simp [Library.add_book_from_isbn, h2, api_book_payload]

/-- Witness for C10: ISBN-driven creation of a two-author book on the
exemplar catalog. -/
theorem claim_C10_witness :
    Library.add_book_from_isbn libEx "9780441013593"
        (some (api_book_payload "Dune" ["Frank Herbert", "Kevin J. Anderson"] "9780441013593")) =
      (Library.save_books
        { libEx with
            books := libEx.books ++
              [⟨"Dune",
                String.intercalate ", "
                  (if (["Frank Herbert", "Kevin J. Anderson"] : List String).isEmpty then
                    ["Unknown Author"]
                  else ["Frank Herbert", "Kevin J. Anderson"]),
                "9780441013593", false, .plain⟩] },
       none) :=
  claim_C10 libEx "9780441013593" "Dune" ["Frank Herbert", "Kevin J. Anderson"] (by decide)

/-- Removing the first key-matching book yields a sublist of the original
collection. -/
lemma eraseFirstBook_sublist (books : List Book) (k : String) (res : List Book)
    (h : eraseFirstBook books k = some res) : res.Sublist books := by
  induction books generalizing res with
  | nil => simp [eraseFirstBook] at h
  | cons b rest ih =>
      by_cases hb : (b.isbn == k) = true
      · simp only [eraseFirstBook, hb, if_true] at h
        injection h with h2
        subst h2
        exact List.sublist_cons_self b rest
      · have hb2 : (b.isbn == k) = false := by simpa using hb
        simp only [eraseFirstBook, hb2, Bool.false_eq_true, if_false] at h
        cases he : eraseFirstBook rest k with
        | none => simp [he] at h
        | some l2 =>
            simp [he] at h
            subst h
            exact List.Sublist.cons₂ b (ih l2 he)

/-- Removing the first key-matching member yields a sublist of the original
collection. -/
lemma eraseFirstMember_sublist (members : List Member) (k : String) (res : List Member)
    (h : eraseFirstMember members k = some res) : res.Sublist members := by
  induction members generalizing res with
  | nil => simp [eraseFirstMember] at h
  | cons m rest ih =>
      by_cases hm : (m.member_id == k) = true
      · simp only [eraseFirstMember, hm, if_true] at h
        injection h with h2
        subst h2
        exact List.sublist_cons_self m rest
      · have hm2 : (m.member_id == k) = false := by simpa using hm
        simp only [eraseFirstMember, hm2, Bool.false_eq_true, if_false] at h
        cases he : eraseFirstMember rest k with
        | none => simp [he] at h
        | some l2 =>
            simp [he] at h
            subst h
            exact List.Sublist.cons₂ m (ih l2 he)

/-- When a key-matching book exists, the removal loop finds one to erase and
shrinks the collection by exactly one. -/
lemma eraseFirstBook_of_found (books : List Book) (k : String) (b : Book)
    (h : books.find? (fun x => x.isbn == k) = some b) :
    ∃ res, eraseFirstBook books k = some res ∧ res.length + 1 = books.length := by
  induction books with
  | nil => simp at h
  | cons x rest ih =>
      by_cases hx : (x.isbn == k) = true
      · exact ⟨rest, by simp [eraseFirstBook, hx], by simp⟩
      · have hx2 : (x.isbn == k) = false := by simpa using hx
        rw [List.find?_cons_of_neg _ (by simp [hx2])] at h
        obtain ⟨res, h1, h2⟩ := ih h
        refine ⟨x :: res, by simp [eraseFirstBook, hx2, h1], ?_⟩
        simp only [List.length_cons]
        omega

/-- C5 counterexample: `load` performs no uniqueness check — a backing file
whose array repeats an isbn loads into a catalog whose identity keys are not
unique. -/
theorem claim_C5_counterexample :
    ¬ ((load_books (.jsonArray [Book.to_dict bookEx, Book.to_dict bookEx])).map
        Book.isbn).Nodup := by decide

/-- C5 amended: the identity key stays unique under the stores' mutating
operations — `add` (which rejects duplicates) and `remove` preserve key
uniqueness in both stores — but `load` does not enforce it: a backing file
with a repeated key produces a store with duplicate keys. -/
theorem claim_C5_amended :
    (∀ (lib : Library) (b : Book), (lib.books.map Book.isbn).Nodup →
      ((Library.add_book lib b).1.books.map Book.isbn).Nodup) ∧
    (∀ (lib : Library) (k : String), (lib.books.map Book.isbn).Nodup →
      ((Library.remove_book lib k).1.books.map Book.isbn).Nodup) ∧
    (∀ (mgr : MemberManager) (m : Member), (mgr.members.map Member.member_id).Nodup →
      ((MemberManager.add_member mgr m).1.members.map Member.member_id).Nodup) ∧
    (∀ (mgr : MemberManager) (k : String), (mgr.members.map Member.member_id).Nodup →
      ((MemberManager.remove_member mgr k).1.members.map Member.member_id).Nodup) := by
  refine ⟨?_, ?_, ?_, ?_⟩
  · intro lib b hnd
    by_cases h : lib.books.any (fun x => x.isbn == b.isbn) = true
    · simpa [Library.add_book, h] using hnd
    · have h2 : lib.books.any (fun x => x.isbn == b.isbn) = false := by simpa using h
      have h3 := List.any_eq_false.mp h2
      simp only [Library.add_book, h2, Bool.false_eq_true, if_false]
      simp only [Library.save_books, List.map_append, List.map_cons, List.map_nil]
      rw [List.nodup_append]
      refine ⟨hnd, List.nodup_singleton _, ?_⟩
      intro y hy hy2
      rw [List.mem_singleton] at hy2
      obtain ⟨x, hx, hxy⟩ := List.mem_map.mp hy
      apply h3 x hx
      rw [hxy, hy2]
      simp
  · intro lib k hnd
    cases he : eraseFirstBook lib.books k with
    | none => simpa [Library.remove_book, he] using hnd
    | some res =>
        have hs := eraseFirstBook_sublist lib.books k res he
        have h4 := List.Nodup.sublist (hs.map Book.isbn) hnd
        simpa [Library.remove_book, he, Library.save_books] using h4
  · intro mgr m hnd
    by_cases h : mgr.members.any (fun x => x.member_id == m.member_id) = true
    · simpa [MemberManager.add_member, h] using hnd
    · have h2 : mgr.members.any (fun x => x.member_id == m.member_id) = false := by simpa using h
      have h3 := List.any_eq_false.mp h2
      simp only [MemberManager.add_member, h2, Bool.false_eq_true, if_false]
      simp only [MemberManager.save_members, List.map_append, List.map_cons, List.map_nil]
      rw [List.nodup_append]
      refine ⟨hnd, List.nodup_singleton _, ?_⟩
      intro y hy hy2
      rw [List.mem_singleton] at hy2
      obtain ⟨x, hx, hxy⟩ := List.mem_map.mp hy
      apply h3 x hx
      rw [hxy, hy2]
      simp
  · intro mgr k hnd
    cases he : eraseFirstMember mgr.members k with
    | none => simpa [MemberManager.remove_member, he] using hnd
    | some res =>
        have hs := eraseFirstMember_sublist mgr.members k res he
        have h4 := List.Nodup.sublist (hs.map Member.member_id) hnd
        simpa [MemberManager.remove_member, he, MemberManager.save_members] using h4

/-- Witness for C5's amended statement: a rejected duplicate add and a
remove, both on the exemplar catalog. -/
theorem claim_C5_amended_witness :
    ((Library.add_book libEx bookEx).1.books.map Book.isbn).Nodup ∧
    ((Library.remove_book libEx "978-0451524935").1.books.map Book.isbn).Nodup :=
  ⟨claim_C5_amended.1 libEx bookEx (by decide),
   claim_C5_amended.2.1 libEx "978-0451524935" (by decide)⟩

/-- C8 counterexample: not every caller-facing delete operation rejects
deleting a borrowed book — the CLI remove flow deletes it (the store becomes
empty and no error is reported). -/
theorem claim_C8_counterexample :
    bookBor.is_borrowed = true ∧
    remove_book_flow libBor "978-0451524935" = (⟨[], []⟩, none) := by decide

/-- C8 amended: the API delete endpoint rejects deleting a borrowed book
(the store is returned unchanged with a 400-style error), while the store's
own `remove_book` — and hence the CLI remove flow, which calls it with no
guard of its own — deletes the found book regardless of its `is_borrowed`
flag, shrinking the collection by one. -/
theorem claim_C8_amended (lib : Library) (isbn : String) (b : Book)
    (hfind : lib.find_book isbn = some b) :
    (b.is_borrowed = true → api_delete_book lib isbn = (lib, some .cannotDeleteBorrowed)) ∧
    (∃ books2, eraseFirstBook lib.books (pyStrip isbn) = some books2 ∧
      books2.length + 1 = lib.books.length ∧
      Library.remove_book lib (pyStrip isbn) =
        (Library.save_books { lib with books := books2 }, none) ∧
      remove_book_flow lib isbn =
        (Library.save_books { lib with books := books2 }, none)) := by
  constructor
  · intro hbor
    simp only [api_delete_book, hfind, hbor, if_true]
  · have hfind2 : lib.books.find? (fun x => x.isbn == pyStrip isbn) = some b := hfind
    obtain ⟨books2, h1, h2⟩ := eraseFirstBook_of_found lib.books (pyStrip isbn) b hfind2
    refine ⟨books2, h1, h2, ?_, ?_⟩
    · simp only [Library.remove_book, h1]
    · simp only [remove_book_flow, Library.remove_book, h1]

/-- Witness for C8's amended statement: the API endpoint refuses to delete
the borrowed exemplar book while the CLI flow deletes it. -/
theorem claim_C8_amended_witness :
    api_delete_book libBor "978-0451524935" = (libBor, some .cannotDeleteBorrowed) ∧
    (∃ books2, eraseFirstBook libBor.books (pyStrip "978-0451524935") = some books2 ∧
      books2.length + 1 = libBor.books.length ∧
      Library.remove_book libBor (pyStrip "978-0451524935") =
        (Library.save_books { libBor with books := books2 }, none) ∧
      remove_book_flow libBor "978-0451524935" =
        (Library.save_books { libBor with books := books2 }, none)) :=
  ⟨(claim_C8_amended libBor "978-0451524935" bookBor (by decide)).1 (by decide),
   (claim_C8_amended libBor "978-0451524935" bookBor (by decide)).2⟩
